import Mathlib

/-!
Verification of the `ts_arithmetic_svc` repository: a FastAPI service exposing
four arithmetic operations (add, subtract, multiply, divide) on Python
`decimal.Decimal` operands, with range validation, overflow detection and a
fixed error taxonomy.

The development shallowly embeds:
  * the finite values of Python's `decimal.Decimal` together with the
    operations `+`, `-`, `*`, `/` under the process-wide context set in
    `src/ts_arithmetic_svc/app.py` (`decimal.getcontext().prec = 28`, default
    rounding ROUND_HALF_EVEN, default exponent limits Emin/Emax = ±999999
    with `decimal.Overflow` trapped and Underflow/Subnormal untrapped) —
    following the algorithms of CPython's `_pydecimal` (`__add__`, `__sub__`,
    `__mul__`, `__truediv__`, `_fix` including its subnormal and overflow
    paths, `__str__`);
  * the calculator core `src/ts_arithmetic_svc/core/calculator.py`;
  * the exception classes of `src/ts_arithmetic_svc/exceptions.py`;
  * the request validation of `src/ts_arithmetic_svc/api/models.py`
    (pydantic enum + `ge`/`le` range constraints);
  * the dispatch and catch-all logic of
    `src/ts_arithmetic_svc/api/routers/calculate.py` and the exception
    handler of `app.py`.
-/

namespace TsArith

/-- The process-wide decimal context precision: `decimal.getcontext().prec = 28`
in `app.py`. -/
def prec : Nat := 28

/-- A finite value of Python's `decimal.Decimal`: numeric value `c * 10 ^ e`.
CPython stores a sign bit and an unsigned coefficient digit string; here the
sign is merged into the integer coefficient `c` (Python's `==`, arithmetic and
comparisons are value-based, and no claim below distinguishes `-0` from `0`,
the one point where the merged representation collapses two Python states). -/
structure Dec where
  c : Int
  e : Int
deriving DecidableEq

namespace Dec

/-- The exact rational value of a decimal. -/
def val (d : Dec) : ℚ := d.c * 10 ^ d.e

/-- Number of digits of a coefficient magnitude (`len(self._int)` in CPython;
CPython represents zero as the one-digit string `'0'`, and `Nat.toDigits`
likewise gives `numDigits 0 = 1`). -/
def numDigits (n : Nat) : Nat := (Nat.toDigits 10 n).length

/-- Round `n / 10 ^ k` to the nearest integer, ties to even — the
ROUND_HALF_EVEN rule CPython applies to the coefficient digit string in
`Decimal._fix` (`_round_half_even`). -/
def roundHalfEven (n k : Nat) : Nat :=
  let p := 10 ^ k
  let q := n / p
  let r := n % p
  if p < 2 * r then q + 1
  else if 2 * r < p then q
  else if q % 2 = 0 then q else q + 1

/-- The default context's minimal adjusted exponent (`Context.Emin`). -/
def Emin : Int := -999999

/-- The default context's maximal adjusted exponent (`Context.Emax`). -/
def Emax : Int := 999999

/-- `Context.Etiny() = Emin - prec + 1`: the exponent at which subnormal
results are rounded. -/
def Etiny : Int := Emin - prec + 1

/-- `Context.Etop() = Emax - prec + 1`: the largest allowed exponent of a
full-precision coefficient. -/
def Etop : Int := Emax - prec + 1

/-- `Decimal.adjusted()`: `self._exp + len(self._int) - 1` (for zero CPython's
coefficient string is `'0'` of length 1, matching `numDigits 0 = 1`). -/
def adjusted (d : Dec) : Int := d.e + (numDigits d.c.natAbs : Int) - 1

/-- `Decimal._fix` under the default context (prec 28, ROUND_HALF_EVEN,
Emin/Emax = ±999999, clamp 0, and `decimal.Overflow` trapped while Underflow,
Subnormal, Inexact, Rounded and Clamped only raise flags):
a zero has its exponent clamped into `[Etiny, Emax]`; a nonzero value whose
minimal exponent `len + exp - prec` exceeds `Etop` (equivalently, adjusted
exponent above `Emax`) raises the trapped `decimal.Overflow` Python exception,
modelled as `none`; a subnormal value (adjusted exponent below `Emin`) is
rounded at exponent `Etiny` instead of at `prec` digits, which can underflow
it to zero; otherwise a coefficient longer than `prec` digits is rounded
half-even to `prec` digits, a carry producing `10 ^ prec` is renormalised to
`10 ^ (prec - 1)` with one more exponent step (re-checking `Etop`, again
`decimal.Overflow` when exceeded), and a value already in range is returned
unchanged.  (CPython's `digits < 0` sticky-digit path is subsumed: when fewer
than one digit survives, the value is strictly below half an ulp of the
target exponent and `roundHalfEven` yields 0, as the sticky construction
does.) -/
def fix (d : Dec) : Option Dec :=
  if d.c = 0 then
    some ⟨0, min (max d.e Etiny) Emax⟩
  else
    let n := d.c.natAbs
    if Etop < (numDigits n : Int) + d.e - prec then none
    else
      let expMin : Int :=
        if adjusted d < Emin then Etiny else (numDigits n : Int) + d.e - prec
      if d.e < expMin then
        let k := (expMin - d.e).toNat
        let q := roundHalfEven n k
        let sgn : Int := if d.c < 0 then -1 else 1
        if q = 10 ^ prec then
          if Etop < expMin + 1 then none
          else some ⟨sgn * 10 ^ (prec - 1), expMin + 1⟩
        else some ⟨sgn * q, expMin⟩
      else some d

/-- `Decimal.copy_negate`: exact negation, no context rounding. -/
def cneg (d : Dec) : Dec := ⟨-d.c, d.e⟩

/-- The exact sum of two decimals, written at the smaller exponent. -/
def addRaw (a b : Dec) : Dec :=
  let m := min a.e b.e
  ⟨a.c * 10 ^ (a.e - m).toNat + b.c * 10 ^ (b.e - m).toNat, m⟩

/-- `Decimal.__add__` under the default context: the exact sum followed by
`_fix`; `none` models the trapped `decimal.Overflow` exception escaping.
(CPython's `_normalize` caps how far the smaller operand is padded, but the
cap is chosen so that the rounded value is unchanged; the embedding computes
the exact sum directly.) -/
def add (a b : Dec) : Option Dec := fix (addRaw a b)

/-- `Decimal.__sub__`: CPython implements it as
`self.__add__(other.copy_negate(), context=context)`. -/
def sub (a b : Dec) : Option Dec := add a (cneg b)

/-- `Decimal.__mul__`: exact product of coefficients, sum of exponents,
then `_fix`; `none` models the trapped `decimal.Overflow` exception. -/
def mul (a b : Dec) : Option Dec := fix ⟨a.c * b.c, a.e + b.e⟩

/-- The trailing-zero-stripping loop of the exact branch of
`Decimal.__truediv__`: `while exp < ideal_exp and coeff % 10 == 0`.
The fuel passed by `divRaw` equals `ideal_exp - exp` when positive, so the
fuelled recursion performs exactly the iterations of the Python loop. -/
def dropZeros : Nat → Nat → Int → Nat × Int
  | 0, q, e => (q, e)
  | f + 1, q, e => if q % 10 = 0 then dropZeros f (q / 10) (e + 1) else (q, e)

/-- `Decimal.__truediv__` for a nonzero divisor (the service checks `b == 0`
itself before dividing, so CPython's DivisionByZero path is never taken):
compute `prec + 1` quotient digits by shifted integer division, nudge an
inexact quotient off multiples of 5 so that the final half-even rounding in
`_fix` is correct, and for an exact quotient strip trailing zeros down toward
the ideal exponent; `none` models the trapped `decimal.Overflow` exception
raised by the final `_fix`. -/
def divRaw (a b : Dec) : Option Dec :=
  if a.c = 0 then fix ⟨0, a.e - b.e⟩
  else
    let an := a.c.natAbs
    let bn := b.c.natAbs
    let neg : Bool := decide (a.c < 0) != decide (b.c < 0)
    let shift : Int := (numDigits bn : Int) - (numDigits an : Int) + prec + 1
    let exp := a.e - b.e - shift
    let qr : Nat × Nat :=
      if 0 ≤ shift then ((an * 10 ^ shift.toNat) / bn, (an * 10 ^ shift.toNat) % bn)
      else (an / (bn * 10 ^ (-shift).toNat), an % (bn * 10 ^ (-shift).toNat))
    let qe : Nat × Int :=
      if qr.2 ≠ 0 then (if qr.1 % 5 = 0 then qr.1 + 1 else qr.1, exp)
      else dropZeros shift.toNat qr.1 exp
    fix ⟨if neg then -(qe.1 : Int) else (qe.1 : Int), qe.2⟩

/-- Both coefficients rescaled to the common (smaller) exponent.  Comparing
these two integers compares the numeric values; CPython's `Decimal._cmp`
performs the same comparison on padded coefficient digit strings. -/
def scaledPair (a b : Dec) : Int × Int :=
  let m := min a.e b.e
  (a.c * 10 ^ (a.e - m).toNat, b.c * 10 ^ (b.e - m).toNat)

/-- Value equality of two decimals (`Decimal.__eq__`, via `_cmp`). -/
def beq (a b : Dec) : Bool := decide ((scaledPair a b).1 = (scaledPair a b).2)

/-- `abs(a) > b` as Python evaluates it on decimals: `__abs__` (whose context
rounding is the identity on every already-`_fix`ed operand the service feeds
it) followed by the value comparison `__gt__`/`_cmp`. -/
def absGt (a b : Dec) : Bool :=
  decide ((scaledPair a b).2 < ((scaledPair a b).1.natAbs : Int))

/-- Digit characters of a coefficient magnitude, most significant first. -/
def digitChars (n : Nat) : List Char := Nat.toDigits 10 n

/-- `Decimal.__str__` for finite values: fixed-point form when
`exp <= 0 and adjusted exponent >= -6`, scientific form otherwise, exactly
following CPython's placement of the decimal point and exponent field. -/
def pyStr (d : Dec) : String :=
  let sign := if d.c < 0 then "-" else ""
  let ds := digitChars d.c.natAbs
  let leftdigits : Int := d.e + ds.length
  let dotplace : Int := if d.e ≤ 0 ∧ -6 < leftdigits then leftdigits else 1
  let ip : String × String :=
    if dotplace ≤ 0 then
      ("0", "." ++ String.mk (List.replicate (-dotplace).toNat '0') ++ String.mk ds)
    else if (ds.length : Int) ≤ dotplace then
      (String.mk ds ++ String.mk (List.replicate (dotplace - ds.length).toNat '0'), "")
    else
      (String.mk (ds.take dotplace.toNat), "." ++ String.mk (ds.drop dotplace.toNat))
  let exppart : String :=
    if leftdigits = dotplace then ""
    else
      let adj := leftdigits - dotplace
      "E" ++ (if 0 ≤ adj then "+" ++ toString adj.toNat else toString adj)
  sign ++ ip.1 ++ ip.2 ++ exppart

end Dec

/-! ## `src/ts_arithmetic_svc/exceptions.py` -/

/-- The three concrete exception classes derived from
`ArithmeticServiceError`. -/
inductive ExcKind where
  | divisionByZero
  | calculationOverflow
  | unsupportedOperation
deriving DecidableEq

/-- An `ArithmeticServiceError` instance: the subclass it was built from,
and the `status_code` / `detail` resolved by `__init__`. -/
structure ArithmeticServiceError where
  kind : ExcKind
  statusCode : Nat
  detail : String
deriving DecidableEq

/-- `DivisionByZeroError(detail=...)`: class attributes
`status_code = 400`, `detail = "Division by zero is not allowed"`;
`__init__` keeps the class attribute when the argument is `None`. -/
def DivisionByZeroError (detail : Option String) : ArithmeticServiceError :=
  ⟨.divisionByZero, 400, detail.getD "Division by zero is not allowed"⟩

/-- `CalculationOverflowError(detail=...)`: class attributes
`status_code = 400`, `detail = "Calculation result exceeds supported range"`. -/
def CalculationOverflowError (detail : Option String) : ArithmeticServiceError :=
  ⟨.calculationOverflow, 400, detail.getD "Calculation result exceeds supported range"⟩

/-- `UnsupportedOperationError(detail=...)`: class attributes
`status_code = 400`, `detail = "Unsupported operation"`. -/
def UnsupportedOperationError (detail : Option String) : ArithmeticServiceError :=
  ⟨.unsupportedOperation, 400, detail.getD "Unsupported operation"⟩

/-- A Python exception escaping a calculator function or the calculation
step: either one of the service's own `ArithmeticServiceError`s, or any other
fault — in particular the trapped `decimal.Overflow` raised inside the
decimal library, here tagged `other "decimal.Overflow"` (the boundary's
except-clauses only distinguish the three service classes from everything
else, so only the tag's inequality with the fixed messages matters). -/
inductive PyExc where
  | service (e : ArithmeticServiceError)
  | other (msg : String)

/-! ## `src/ts_arithmetic_svc/core/calculator.py` -/

namespace Calculator

/-- `MAX_ABS_OPERAND = Decimal(10) ** 10` from `api/models.py` (an exact
11-digit power, unaffected by the 28-digit context). -/
def MAX_ABS_OPERAND : Dec := ⟨10 ^ 10, 0⟩

/-- `calculator.add`: `result = a + b` (a trapped `decimal.Overflow` raised by
the library propagates out of the function uncaught); raise
`CalculationOverflowError` when `abs(result) > MAX_ABS_OPERAND`, else return
`result`. -/
def add (a b : Dec) : Except PyExc Dec :=
  match Dec.add a b with
  | none => .error (.other "decimal.Overflow")
  | some result =>
      if Dec.absGt result MAX_ABS_OPERAND then
        .error (.service (CalculationOverflowError
          (some "Calculation result exceeds supported range")))
      else .ok result

/-- `calculator.subtract`: `result = a - b`; same overflow policing. -/
def subtract (a b : Dec) : Except PyExc Dec :=
  match Dec.sub a b with
  | none => .error (.other "decimal.Overflow")
  | some result =>
      if Dec.absGt result MAX_ABS_OPERAND then
        .error (.service (CalculationOverflowError
          (some "Calculation result exceeds supported range")))
      else .ok result

/-- `calculator.multiply`: `result = a * b`; same overflow policing. -/
def multiply (a b : Dec) : Except PyExc Dec :=
  match Dec.mul a b with
  | none => .error (.other "decimal.Overflow")
  | some result =>
      if Dec.absGt result MAX_ABS_OPERAND then
        .error (.service (CalculationOverflowError
          (some "Calculation result exceeds supported range")))
      else .ok result

/-- `calculator.divide`: raise `DivisionByZeroError` when `b == Decimal(0)`
(a value comparison, checked before dividing); otherwise `result = a / b`
with the same overflow policing. -/
def divide (a b : Dec) : Except PyExc Dec :=
  if Dec.beq b ⟨0, 0⟩ then
    .error (.service (DivisionByZeroError (some "Division by zero is not allowed")))
  else
    match Dec.divRaw a b with
    | none => .error (.other "decimal.Overflow")
    | some result =>
        if Dec.absGt result MAX_ABS_OPERAND then
          .error (.service (CalculationOverflowError
            (some "Calculation result exceeds supported range")))
        else .ok result

end Calculator

/-! ## `src/ts_arithmetic_svc/api/models.py` -/

/-- `OperationType(str, Enum)`: the four supported operations. -/
inductive OperationType where
  | add
  | subtract
  | multiply
  | divide
deriving DecidableEq

/-- The string value of each enum member. -/
def OperationType.value : OperationType → String
  | .add => "add"
  | .subtract => "subtract"
  | .multiply => "multiply"
  | .divide => "divide"

/-- Pydantic's validation of the `operation` field: a string is accepted
exactly when it is the value of one of the four members (case-sensitive). -/
def OperationType.ofValue (s : String) : Option OperationType :=
  if s = "add" then some .add
  else if s = "subtract" then some .subtract
  else if s = "multiply" then some .multiply
  else if s = "divide" then some .divide
  else none

/-- A validated `CalculationRequest`. -/
structure CalculationRequest where
  operation : OperationType
  a : Dec
  b : Dec

/-- A `CalculationResponse` before JSON serialization. -/
structure CalculationResponse where
  result : Dec
  operation : OperationType
  operands : List Dec

/-- An incoming payload whose fields have already been decoded to the types
pydantic parses them into: the raw `operation` string and the two operands as
exact decimals (numeric-looking strings, integers and float literals all parse
to a `Decimal` before the field constraints run). -/
structure RawRequest where
  operation : String
  a : Dec
  b : Dec

/-- The conjunction of the two pydantic field constraints
`ge=-MAX_ABS_OPERAND, le=MAX_ABS_OPERAND`: equivalently, the operand's
magnitude does not exceed `MAX_ABS_OPERAND`. -/
def inRange (d : Dec) : Bool := !(Dec.absGt d Calculator.MAX_ABS_OPERAND)

/-- Pydantic validation of `CalculationRequest`: every violated field is
reported, in field-declaration order (`operation`, `a`, `b`); a request is
accepted exactly when no field is violated. -/
def validate (r : RawRequest) : Except (List String) CalculationRequest :=
  let errs : List String :=
    (if (OperationType.ofValue r.operation).isNone then ["operation"] else [])
      ++ (if inRange r.a then [] else ["a"])
      ++ (if inRange r.b then [] else ["b"])
  match OperationType.ofValue r.operation with
  | some op => if inRange r.a && inRange r.b then .ok ⟨op, r.a, r.b⟩ else .error errs
  | none => .error errs

/-! ## `src/ts_arithmetic_svc/api/routers/calculate.py` and `app.py` -/

/-- The type of the values of `operation_map`. -/
def CalcFun := Dec → Dec → Except PyExc Dec

namespace Router

/-- The dispatch table `operation_map` built inside `calculate`, keyed by
`OperationType` (as a dictionary, its lookup is partial; membership is what
the guard tests). -/
def operationMap : OperationType → Option CalcFun
  | .add => some Calculator.add
  | .subtract => some Calculator.subtract
  | .multiply => some Calculator.multiply
  | .divide => some Calculator.divide

/-- The body of the `calculate` endpoint, parameterized by the dispatch table
(the source builds `operation_map` at runtime precisely so that the functions
can be substituted): the `try` block raises `UnsupportedOperationError` with
an interpolated message when the operation is not a key, otherwise runs the
calculator function and packages the response; the first `except` clause
re-raises the three known error classes, and the trailing
`except Exception` re-classifies anything else as `UnsupportedOperationError`
with the fixed fallback message. -/
def calculateWith (opMap : OperationType → Option CalcFun)
    (req : CalculationRequest) : Except ArithmeticServiceError CalculationResponse :=
  let attempt : Except PyExc CalculationResponse :=
    match opMap req.operation with
    | none =>
        .error (.service (UnsupportedOperationError
          (some ("Unsupported operation: " ++ req.operation.value))))
    | some f =>
        match f req.a req.b with
        | .error exc => .error exc
        | .ok result => .ok ⟨result, req.operation, [req.a, req.b]⟩
  match attempt with
  | .ok resp => .ok resp
  | .error (.service e) => .error e
  | .error (.other _) =>
      .error (UnsupportedOperationError
        (some "An unexpected error occurred during calculation"))

/-- The `calculate` endpoint with the real `operation_map`. -/
def calculate : CalculationRequest → Except ArithmeticServiceError CalculationResponse :=
  calculateWith operationMap

end Router

/-- A user-visible HTTP outcome of one request. -/
inductive Response where
  | success (result : String) (operation : String) (operands : List String)
  | failure (statusCode : Nat) (detail : String)
  | validationFailure (statusCode : Nat) (fields : List String)
deriving DecidableEq

/-- `arithmetic_service_error_handler` in `app.py`: a JSONResponse with the
exception's `status_code` and body `{"detail": exc.detail}`. -/
def arithmeticServiceErrorHandler (e : ArithmeticServiceError) : Response :=
  .failure e.statusCode e.detail

/-- One whole request, parameterized by the dispatch table: FastAPI first runs
pydantic validation (a failure is answered with status 422 listing every
violated field, before the endpoint body — hence before any arithmetic —
runs), then the `calculate` body, whose `ArithmeticServiceError`s are turned
into responses by `arithmetic_service_error_handler`; a success is serialized
with `str()` applied to every decimal. -/
def handleWith (opMap : OperationType → Option CalcFun) (raw : RawRequest) : Response :=
  match validate raw with
  | .error fields => .validationFailure 422 fields
  | .ok req =>
      match Router.calculateWith opMap req with
      | .error e => arithmeticServiceErrorHandler e
      | .ok resp =>
          .success (Dec.pyStr resp.result) resp.operation.value
            (resp.operands.map Dec.pyStr)

/-- The deployed request pipeline. -/
def handleRequest : RawRequest → Response :=
  handleWith Router.operationMap

/-- Spec-side reformulation of the endpoint body, to be compared with
`Router.calculate`: a validated request is dispatched by a closed match to
exactly one of the four calculator functions — no dictionary lookup and no
reachable unsupported-operation branch; a service error is re-raised and any
other fault is re-classified with the fixed fallback message, exactly as the
endpoint's except-clauses do. -/
def dispatchSpec (req : CalculationRequest) : Except ArithmeticServiceError CalculationResponse :=
  let r : Except PyExc Dec :=
    match req.operation with
    | .add => Calculator.add req.a req.b
    | .subtract => Calculator.subtract req.a req.b
    | .multiply => Calculator.multiply req.a req.b
    | .divide => Calculator.divide req.a req.b
  match r with
  | .ok result => .ok ⟨result, req.operation, [req.a, req.b]⟩
  | .error (.service e) => .error e
  | .error (.other _) =>
      .error (UnsupportedOperationError
        (some "An unexpected error occurred during calculation"))

/-! ## Bridge lemmas: integer-level operations versus rational values -/

namespace Dec

lemma val_mk (c m : Int) : (Dec.mk c m).val = (c : ℚ) * 10 ^ m := rfl

lemma scaled_val_left (a b : Dec) :
    (((scaledPair a b).1 : Int) : ℚ) * 10 ^ min a.e b.e = a.val := by
  have h : min a.e b.e ≤ a.e := min_le_left _ _
  simp only [scaledPair, val]
  push_cast
  rw [← zpow_natCast (10 : ℚ) (a.e - min a.e b.e).toNat,
    Int.toNat_of_nonneg (sub_nonneg.mpr h), mul_assoc,
    ← zpow_add₀ (by norm_num : (10 : ℚ) ≠ 0), sub_add_cancel]

lemma scaled_val_right (a b : Dec) :
    (((scaledPair a b).2 : Int) : ℚ) * 10 ^ min a.e b.e = b.val := by
  have h : min a.e b.e ≤ b.e := min_le_right _ _
  simp only [scaledPair, val]
  push_cast
  rw [← zpow_natCast (10 : ℚ) (b.e - min a.e b.e).toNat,
    Int.toNat_of_nonneg (sub_nonneg.mpr h), mul_assoc,
    ← zpow_add₀ (by norm_num : (10 : ℚ) ≠ 0), sub_add_cancel]

lemma ten_zpow_pos (m : Int) : (0 : ℚ) < 10 ^ m :=
  zpow_pos (by norm_num) m

/-- Value equality of decimals is what `beq` decides. -/
lemma beq_iff (a b : Dec) : beq a b = true ↔ a.val = b.val := by
  have hp := ten_zpow_pos (min a.e b.e)
  rw [beq, decide_eq_true_iff]
  constructor
  · intro h
    rw [← scaled_val_left a b, ← scaled_val_right a b, h]
  · intro h
    have := (scaled_val_left a b).trans (h.trans (scaled_val_right a b).symm)
    exact_mod_cast mul_right_cancel₀ (ne_of_gt hp) this

/-- `abs(a) > b` on decimals is what `absGt` decides. -/
lemma absGt_iff (a b : Dec) : absGt a b = true ↔ b.val < |a.val| := by
  have hp := ten_zpow_pos (min a.e b.e)
  rw [absGt, decide_eq_true_iff, ← Int.abs_eq_natAbs]
  have hcast : (scaledPair a b).2 < |(scaledPair a b).1| ↔
      (((scaledPair a b).2 : Int) : ℚ) < |(((scaledPair a b).1 : Int) : ℚ)| := by
    exact_mod_cast Iff.rfl
  rw [hcast, ← mul_lt_mul_right hp, scaled_val_right a b, ← abs_of_pos hp, ← abs_mul,
    scaled_val_left a b]

lemma absGt_MAX_iff (d : Dec) :
    absGt d Calculator.MAX_ABS_OPERAND = true ↔ (10 : ℚ) ^ (10 : ℕ) < |d.val| := by
  rw [absGt_iff]
  have : Calculator.MAX_ABS_OPERAND.val = (10 : ℚ) ^ (10 : ℕ) := by
    rw [Calculator.MAX_ABS_OPERAND, val_mk]
    norm_num
  rw [this]

lemma beq_zero_iff (b : Dec) : beq b ⟨0, 0⟩ = true ↔ b.val = 0 := by
  rw [beq_iff]
  simp [val_mk]

/-- The exact sum: `addRaw` computes `a + b` with no rounding. -/
lemma addRaw_val (a b : Dec) : (addRaw a b).val = a.val + b.val := by
  have hl := scaled_val_left a b
  have hr := scaled_val_right a b
  simp only [scaledPair] at hl hr
  simp only [addRaw, val_mk, ← hl, ← hr]
  push_cast
  ring

lemma numDigits_zero : numDigits 0 = 1 := rfl

/-- `_fix` returns a value unchanged when its coefficient already fits in
`prec` digits and its exponent is in the context's regular range: adjusted
exponent at most `Emax` (no overflow) and exponent at least `Etiny` (no
subnormal re-rounding; for a zero this is the clamping range). -/
lemma fix_regular {d : Dec} (h1 : numDigits d.c.natAbs ≤ prec)
    (h2 : adjusted d ≤ Emax) (h3 : Etiny ≤ d.e) : fix d = some d := by
  obtain ⟨c, e⟩ := d
  by_cases hc : c = 0
  · subst hc
    have h2' : e ≤ Emax := by
      simp only [adjusted, Int.natAbs_zero, numDigits_zero] at h2
      omega
    rw [fix]
    rw [if_pos rfl]
    rw [max_eq_left h3, min_eq_left h2']
  · rw [fix]
    rw [if_neg hc]
    have hlenByCast : ((numDigits (Int.natAbs c) : Int)) ≤ (prec : Int) := by
      exact_mod_cast h1
    have hadj : adjusted ⟨c, e⟩ = e + (numDigits (Int.natAbs c) : Int) - 1 := rfl
    have hnot1 : ¬(Etop < (numDigits (Int.natAbs c) : Int) + e - prec) := by
      simp only [Etop, Emax, Emin, prec] at *
      omega
    rw [if_neg hnot1]
    have hnot2 : ¬(e < if adjusted ⟨c, e⟩ < Emin then Etiny
        else (numDigits (Int.natAbs c) : Int) + e - prec) := by
      by_cases hs : adjusted ⟨c, e⟩ < Emin
      · rw [if_pos hs]
        simp only [Etiny, Emin, prec] at h3 ⊢
        omega
      · rw [if_neg hs]
        omega
    rw [if_neg hnot2]

lemma cneg_val (d : Dec) : (cneg d).val = -d.val := by
  simp only [cneg, val_mk, val]
  push_cast
  ring

end Dec

/-- The overflow guard shared by the four calculator functions, success
branch: a rounded result of magnitude at most `10 ^ 10` passes. -/
lemma overflow_guard_ok {r : Dec} (h : |r.val| ≤ 10 ^ 10) :
    (if Dec.absGt r Calculator.MAX_ABS_OPERAND then
        (Except.error (PyExc.service (CalculationOverflowError
          (some "Calculation result exceeds supported range"))) :
          Except PyExc Dec)
      else Except.ok r) = Except.ok r := by
  rw [if_neg]
  rw [Dec.absGt_MAX_iff r]
  exact not_lt.2 h

/-- The overflow guard, failure branch: a rounded result of magnitude
strictly above `10 ^ 10` raises `CalculationOverflowError`. -/
lemma overflow_guard_error {r : Dec} (h : 10 ^ 10 < |r.val|) :
    (if Dec.absGt r Calculator.MAX_ABS_OPERAND then
        (Except.error (PyExc.service (CalculationOverflowError
          (some "Calculation result exceeds supported range"))) :
          Except PyExc Dec)
      else Except.ok r) =
      Except.error (PyExc.service (CalculationOverflowError
        (some "Calculation result exceeds supported range"))) := by
  rw [if_pos]
  exact (Dec.absGt_MAX_iff r).2 h

/-- Any `ArithmeticServiceError` raised by `calculator.add` is the overflow
error with its fixed message (other escapes are the raw decimal fault). -/
lemma add_service_error_eq {a b : Dec} {e : ArithmeticServiceError}
    (h : Calculator.add a b = .error (.service e)) :
    e = CalculationOverflowError (some "Calculation result exceeds supported range") := by
  rw [Calculator.add] at h
  rcases hf : Dec.add a b with _ | r <;> simp only [hf] at h
  · simp at h
  · by_cases hb : Dec.absGt r Calculator.MAX_ABS_OPERAND = true
    · rw [if_pos hb] at h
      exact (PyExc.service.inj (Except.error.inj h)).symm
    · rw [if_neg hb] at h
      cases h

/-- Any `ArithmeticServiceError` raised by `calculator.subtract` is the
overflow error. -/
lemma subtract_service_error_eq {a b : Dec} {e : ArithmeticServiceError}
    (h : Calculator.subtract a b = .error (.service e)) :
    e = CalculationOverflowError (some "Calculation result exceeds supported range") := by
  rw [Calculator.subtract] at h
  rcases hf : Dec.sub a b with _ | r <;> simp only [hf] at h
  · simp at h
  · by_cases hb : Dec.absGt r Calculator.MAX_ABS_OPERAND = true
    · rw [if_pos hb] at h
      exact (PyExc.service.inj (Except.error.inj h)).symm
    · rw [if_neg hb] at h
      cases h

/-- Any `ArithmeticServiceError` raised by `calculator.multiply` is the
overflow error. -/
lemma multiply_service_error_eq {a b : Dec} {e : ArithmeticServiceError}
    (h : Calculator.multiply a b = .error (.service e)) :
    e = CalculationOverflowError (some "Calculation result exceeds supported range") := by
  rw [Calculator.multiply] at h
  rcases hf : Dec.mul a b with _ | r <;> simp only [hf] at h
  · simp at h
  · by_cases hb : Dec.absGt r Calculator.MAX_ABS_OPERAND = true
    · rw [if_pos hb] at h
      exact (PyExc.service.inj (Except.error.inj h)).symm
    · rw [if_neg hb] at h
      cases h

/-- Any `ArithmeticServiceError` raised by `calculator.divide` is the
division-by-zero error or the overflow error, each with its fixed message. -/
lemma divide_service_error_eq {a b : Dec} {e : ArithmeticServiceError}
    (h : Calculator.divide a b = .error (.service e)) :
    e = DivisionByZeroError (some "Division by zero is not allowed") ∨
    e = CalculationOverflowError (some "Calculation result exceeds supported range") := by
  rw [Calculator.divide] at h
  by_cases hz : Dec.beq b ⟨0, 0⟩ = true
  · rw [if_pos hz] at h
    exact Or.inl (PyExc.service.inj (Except.error.inj h)).symm
  · rw [if_neg hz] at h
    rcases hf : Dec.divRaw a b with _ | r <;> simp only [hf] at h
    · simp at h
    · by_cases hb : Dec.absGt r Calculator.MAX_ABS_OPERAND = true
      · rw [if_pos hb] at h
        exact Or.inr (PyExc.service.inj (Except.error.inj h)).symm
      · rw [if_neg hb] at h
        cases h

/-- Any non-service exception escaping `calculator.add` is the trapped
decimal fault. -/
lemma add_fault_eq {a b : Dec} {msg : String}
    (h : Calculator.add a b = .error (.other msg)) : msg = "decimal.Overflow" := by
  rw [Calculator.add] at h
  rcases hf : Dec.add a b with _ | r <;> simp only [hf] at h
  · exact (PyExc.other.inj (Except.error.inj h)).symm
  · by_cases hb : Dec.absGt r Calculator.MAX_ABS_OPERAND = true
    · rw [if_pos hb] at h
      simp at h
    · rw [if_neg hb] at h
      cases h

/-- Every error escaping the deployed `calculate` endpoint is one of the two
arithmetic errors, or the fallback unsupported-operation error produced by
the catch-all from a raw decimal fault — each with its fixed message (in
particular the interpolated unsupported-operation branch never fires). -/
lemma calculate_error_classify {req : CalculationRequest} {e : ArithmeticServiceError}
    (h : Router.calculate req = .error e) :
    e = DivisionByZeroError (some "Division by zero is not allowed") ∨
    e = CalculationOverflowError (some "Calculation result exceeds supported range") ∨
    e = UnsupportedOperationError
      (some "An unexpected error occurred during calculation") := by
  obtain ⟨op, a, b⟩ := req
  cases op
  case add =>
    simp only [Router.calculate, Router.calculateWith, Router.operationMap] at h
    rcases hc : Calculator.add a b with exc | r
    · rcases exc with e2 | msg <;> simp only [hc] at h
      · exact Or.inr (Or.inl ((Except.error.inj h) ▸ add_service_error_eq hc))
      · exact Or.inr (Or.inr (Except.error.inj h).symm)
    · simp only [hc] at h
      cases h
  case subtract =>
    simp only [Router.calculate, Router.calculateWith, Router.operationMap] at h
    rcases hc : Calculator.subtract a b with exc | r
    · rcases exc with e2 | msg <;> simp only [hc] at h
      · exact Or.inr (Or.inl ((Except.error.inj h) ▸ subtract_service_error_eq hc))
      · exact Or.inr (Or.inr (Except.error.inj h).symm)
    · simp only [hc] at h
      cases h
  case multiply =>
    simp only [Router.calculate, Router.calculateWith, Router.operationMap] at h
    rcases hc : Calculator.multiply a b with exc | r
    · rcases exc with e2 | msg <;> simp only [hc] at h
      · exact Or.inr (Or.inl ((Except.error.inj h) ▸ multiply_service_error_eq hc))
      · exact Or.inr (Or.inr (Except.error.inj h).symm)
    · simp only [hc] at h
      cases h
  case divide =>
    simp only [Router.calculate, Router.calculateWith, Router.operationMap] at h
    rcases hc : Calculator.divide a b with exc | r
    · rcases exc with e2 | msg <;> simp only [hc] at h
      · rcases divide_service_error_eq hc with h2 | h2
        · exact Or.inl ((Except.error.inj h) ▸ h2)
        · exact Or.inr (Or.inl ((Except.error.inj h) ▸ h2))
      · exact Or.inr (Or.inr (Except.error.inj h).symm)
    · simp only [hc] at h
      cases h

/-- The `operation` enum accepts exactly the four lowercase tokens. -/
lemma ofValue_eq_none_iff (s : String) :
    OperationType.ofValue s = none ↔
      s ∉ (["add", "subtract", "multiply", "divide"] : List String) := by
  rw [OperationType.ofValue]
  by_cases h1 : s = "add" <;> by_cases h2 : s = "subtract" <;>
    by_cases h3 : s = "multiply" <;> by_cases h4 : s = "divide" <;>
    simp [h1, h2, h3, h4]

/-- The conjoined pydantic range constraints on one operand hold exactly when
its magnitude is at most `10 ^ 10`. -/
lemma inRange_iff (d : Dec) : inRange d = true ↔ |d.val| ≤ 10 ^ 10 := by
  have habs : Dec.absGt d Calculator.MAX_ABS_OPERAND = false ↔ ¬(10 ^ 10 < |d.val|) := by
    constructor
    · intro hf hlt
      rw [(Dec.absGt_MAX_iff d).2 hlt] at hf
      cases hf
    · intro hn
      cases habs : Dec.absGt d Calculator.MAX_ABS_OPERAND
      · rfl
      · exact absurd ((Dec.absGt_MAX_iff d).1 habs) hn
  rw [inRange, Bool.not_eq_true', habs, not_lt]

/-! ## Claims -/

/-- Claim C1, counterexample: The claim "`add(a,b)` returns exactly `a+b`
whenever `|a|,|b| ≤ 10^10` and `|a+b| ≤ 10^10`" is false on the code: for
`a = 1` and `b = 10^-28` (both well inside the operand range, with
`|a+b| ≤ 10^10`), the 28-significant-digit context rounds the 29-digit exact
sum, and `add` returns `1`, not `1 + 10^-28`. -/
theorem C1_add_exact_counterexample :
    Calculator.add ⟨1, 0⟩ ⟨1, -28⟩ = .ok ⟨10 ^ 27, -27⟩ ∧
    |Dec.val ⟨1, 0⟩| ≤ 10 ^ 10 ∧ |Dec.val ⟨1, -28⟩| ≤ 10 ^ 10 ∧
    |Dec.val ⟨1, 0⟩ + Dec.val ⟨1, -28⟩| ≤ 10 ^ 10 ∧
    Dec.val ⟨10 ^ 27, -27⟩ ≠ Dec.val ⟨1, 0⟩ + Dec.val ⟨1, -28⟩ := by
  refine ⟨rfl, ?_, ?_, ?_, ?_⟩
  · simp only [Dec.val_mk]
    rw [abs_le]
    constructor <;> norm_num
  · simp only [Dec.val_mk]
    rw [abs_le]
    constructor <;> norm_num
  · simp only [Dec.val_mk]
    rw [abs_le]
    constructor <;> norm_num
  · simp only [Dec.val_mk]
    norm_num

/-- Claim C1, amended: `add(a,b)` returns the value of `a+b` rounded by the
process-wide 28-significant-digit half-even decimal context subject to its
exponent limits: whenever the exact sum fits in 28 significant digits and
lies in the context's regular exponent range (adjusted exponent at most
`Emax`, exponent at least `Etiny`), the sum is returned exactly; a context
overflow raises the library's trapped `decimal.Overflow` instead (surfacing
as an unanticipated fault, not `CalculationOverflow`), and a subnormal sum is
re-rounded at `Etiny`, possibly to zero.  `CalculationOverflow` is raised
exactly when the rounded result exists and has magnitude strictly above
`10^10` — the bound itself is allowed, so `add(10^10, 0)` succeeds with
`10^10` and `add(10^10, 1)` overflows. -/
theorem C1_add_rounded (a b : Dec) :
    (Dec.numDigits (Dec.addRaw a b).c.natAbs ≤ prec →
      Dec.adjusted (Dec.addRaw a b) ≤ Dec.Emax →
      Dec.Etiny ≤ (Dec.addRaw a b).e →
      Dec.add a b = some (Dec.addRaw a b) ∧
        (Dec.addRaw a b).val = a.val + b.val) ∧
    (∀ r, Dec.add a b = some r → |r.val| ≤ 10 ^ 10 → Calculator.add a b = .ok r) ∧
    (∀ r, Dec.add a b = some r → 10 ^ 10 < |r.val| →
      Calculator.add a b = .error (.service (CalculationOverflowError
        (some "Calculation result exceeds supported range")))) ∧
    (Dec.add a b = none → Calculator.add a b = .error (.other "decimal.Overflow")) ∧
    Calculator.add ⟨10 ^ 10, 0⟩ ⟨0, 0⟩ = .ok ⟨10 ^ 10, 0⟩ ∧
    Calculator.add ⟨10 ^ 10, 0⟩ ⟨1, 0⟩ =
      .error (.service (CalculationOverflowError
        (some "Calculation result exceeds supported range"))) := by
  refine ⟨?_, ?_, ?_, ?_, rfl, rfl⟩
  · intro h1 h2 h3
    exact ⟨by rw [Dec.add, Dec.fix_regular h1 h2 h3], Dec.addRaw_val a b⟩
  · intro r hr h
    simp only [Calculator.add, hr]
    exact overflow_guard_ok h
  · intro r hr h
    simp only [Calculator.add, hr]
    exact overflow_guard_error h
  · intro hr
    simp only [Calculator.add, hr]

/-- Witness for C1's amended theorem at `a = 1`, `b = 2`. -/
theorem C1_add_rounded_witness :
    Dec.add ⟨1, 0⟩ ⟨2, 0⟩ = some (Dec.addRaw ⟨1, 0⟩ ⟨2, 0⟩) ∧
    (Dec.addRaw ⟨1, 0⟩ ⟨2, 0⟩).val = Dec.val ⟨1, 0⟩ + Dec.val ⟨2, 0⟩ ∧
    Calculator.add ⟨1, 0⟩ ⟨2, 0⟩ = .ok ⟨3, 0⟩ := by
  obtain ⟨hsome, hval⟩ :=
    (C1_add_rounded ⟨1, 0⟩ ⟨2, 0⟩).1 (by decide) (by decide) (by decide)
  refine ⟨hsome, hval, ?_⟩
  refine (C1_add_rounded ⟨1, 0⟩ ⟨2, 0⟩).2.1 ⟨3, 0⟩ rfl ?_
  simp only [Dec.val_mk]
  rw [abs_le]
  constructor <;> norm_num

/-- Claim C2: `divide(a,b)` raises `DivisionByZeroError` carrying the fixed
message "Division by zero is not allowed" exactly when the value of `b` is
zero, whatever its representation (the check `b == Decimal(0)` compares
values, and runs before the division). -/
theorem C2_divide_divByZero_iff (a b : Dec) :
    Calculator.divide a b =
      .error (.service (DivisionByZeroError (some "Division by zero is not allowed"))) ↔
    b.val = 0 := by
  rw [Calculator.divide]
  by_cases h : Dec.beq b ⟨0, 0⟩ = true
  · simp only [if_pos h]
    simp [(Dec.beq_zero_iff b).1 h]
  · have hval : ¬b.val = 0 := fun hv => h ((Dec.beq_zero_iff b).2 hv)
    simp only [if_neg h]
    constructor
    · intro hEq
      exfalso
      rcases hf : Dec.divRaw a b with _ | r <;> simp only [hf] at hEq
      · simp at hEq
      · by_cases ho : Dec.absGt r Calculator.MAX_ABS_OPERAND = true
        · rw [if_pos ho] at hEq
          simp [CalculationOverflowError, DivisionByZeroError] at hEq
        · rw [if_neg ho] at hEq
          simp at hEq
    · intro hv
      exact absurd hv hval

/-- Witness for C2 in both directions: `b = Decimal("0.0")` (a zero with a
nonzero exponent) triggers the error, `b = 3` does not. -/
theorem C2_divide_divByZero_iff_witness :
    Calculator.divide ⟨10, 0⟩ ⟨0, -1⟩ =
      .error (.service (DivisionByZeroError (some "Division by zero is not allowed"))) ∧
    ¬(Calculator.divide ⟨1, 0⟩ ⟨3, 0⟩ =
      .error (.service (DivisionByZeroError (some "Division by zero is not allowed")))) := by
  constructor
  · exact (C2_divide_divByZero_iff ⟨10, 0⟩ ⟨0, -1⟩).mpr (by simp [Dec.val_mk])
  · intro hEq
    have := (C2_divide_divByZero_iff ⟨1, 0⟩ ⟨3, 0⟩).mp hEq
    rw [Dec.val_mk] at this
    norm_num at this

/-- Claim C5: `divide(1, 3)` succeeds; the quotient is computed to the full
28-significant-digit context precision with half-even rounding, and the
serialized result string is `"0.3333333333333333333333333333"` (28 threes);
the returned value is within half an ulp of the exact quotient `1/3`. -/
theorem C5_divide_one_third :
    Calculator.divide ⟨1, 0⟩ ⟨3, 0⟩ = .ok ⟨3333333333333333333333333333, -28⟩ ∧
    Dec.pyStr ⟨3333333333333333333333333333, -28⟩ = "0.3333333333333333333333333333" ∧
    Dec.numDigits (Int.natAbs 3333333333333333333333333333) = 28 ∧
    |Dec.val ⟨3333333333333333333333333333, -28⟩ - 1 / 3| < 1 / (2 * 10 ^ 28) := by
  refine ⟨rfl, by decide, by decide, ?_⟩
  have hx : Dec.val ⟨3333333333333333333333333333, -28⟩ =
      (3333333333333333333333333333 : ℚ) / 10 ^ 28 := by
    rw [Dec.val_mk]
    norm_num
  rw [hx, abs_of_neg (by norm_num)]
  norm_num

/-- Claim C6: `subtract(a, b) = add(a, -b)` for all decimals, where `-b` is the
exact negation of `b` (CPython's `copy_negate`; `Decimal.__sub__` is
implemented as `self.__add__(other.copy_negate())`, and both sides then apply
the same overflow guard), so in particular the two sides agree whenever both
are defined. -/
theorem C6_subtract_eq_add_neg (a b : Dec) :
    Calculator.subtract a b = Calculator.add a (Dec.cneg b) := rfl

/-- Claim C10: `multiply` rounds the product to the 28-significant-digit
context before the overflow check: for `a = 10^10` and `b = 1 + 10^-28`
(both inside the operand range) the exact product `10^10 + 10^-18` exceeds
`10^10`, yet `multiply` returns the rounded result `10^10` without raising
`CalculationOverflow`. -/
theorem C10_multiply_checks_rounded_product :
    |Dec.val ⟨10000000000, 0⟩| ≤ 10 ^ 10 ∧
    |Dec.val ⟨10 ^ 28 + 1, -28⟩| ≤ 10 ^ 10 ∧
    (10 : ℚ) ^ (10 : ℕ) < Dec.val ⟨10000000000, 0⟩ * Dec.val ⟨10 ^ 28 + 1, -28⟩ ∧
    Calculator.multiply ⟨10000000000, 0⟩ ⟨10 ^ 28 + 1, -28⟩ = .ok ⟨10 ^ 27, -17⟩ ∧
    Dec.val ⟨10 ^ 27, -17⟩ = 10 ^ 10 := by
  refine ⟨?_, ?_, ?_, rfl, ?_⟩
  · simp only [Dec.val_mk]
    rw [abs_le]
    constructor <;> norm_num
  · simp only [Dec.val_mk]
    rw [abs_le]
    constructor <;> norm_num
  · simp only [Dec.val_mk]
    norm_num
  · simp only [Dec.val_mk]
    norm_num

/-- Claim C3: Business-rule errors surface at the boundary with status 400 and
body `{detail: <message>}`: every error escaping the deployed `calculate` has
status code 400; the exception handler answers with exactly the error's
status and detail; the three exception classes carry the fixed default
messages (and status 400); among the service's own exception classes,
`add`/`subtract`/`multiply` only ever raise the overflow error and `divide`
only the division-by-zero or overflow error, each with its fixed message; and
a calculation step that raises any fault other than the three known classes
(such as the decimal library's trapped `decimal.Overflow`) is re-classified
as `UnsupportedOperationError` with the fixed fallback message, never
surfaced raw. -/
theorem C3_business_errors_surface_as_400 :
    (∀ req e, Router.calculate req = .error e → e.statusCode = 400) ∧
    (∀ opMap raw req e, validate raw = .ok req →
      Router.calculateWith opMap req = .error e →
      handleWith opMap raw = .failure e.statusCode e.detail) ∧
    ((DivisionByZeroError none).detail = "Division by zero is not allowed" ∧
      (CalculationOverflowError none).detail = "Calculation result exceeds supported range" ∧
      (UnsupportedOperationError none).detail = "Unsupported operation" ∧
      (DivisionByZeroError none).statusCode = 400 ∧
      (CalculationOverflowError none).statusCode = 400 ∧
      (UnsupportedOperationError none).statusCode = 400) ∧
    (∀ a b e, (Calculator.add a b = .error (.service e) ∨
        Calculator.subtract a b = .error (.service e) ∨
        Calculator.multiply a b = .error (.service e)) →
      e = CalculationOverflowError (some "Calculation result exceeds supported range")) ∧
    (∀ a b e, Calculator.divide a b = .error (.service e) →
      e = DivisionByZeroError (some "Division by zero is not allowed") ∨
      e = CalculationOverflowError (some "Calculation result exceeds supported range")) ∧
    (∀ req msg,
      Router.calculateWith (fun _ => some (fun _ _ => .error (.other msg))) req =
        .error (UnsupportedOperationError
          (some "An unexpected error occurred during calculation"))) := by
  refine ⟨?_, ?_, ⟨rfl, rfl, rfl, rfl, rfl, rfl⟩, ?_, ?_, ?_⟩
  · intro req e h
    rcases calculate_error_classify h with rfl | rfl | rfl <;> rfl
  · intro opMap raw req e hv hc
    simp only [handleWith, hv, hc]
    rfl
  · intro a b e h
    rcases h with h | h | h
    · exact add_service_error_eq h
    · exact subtract_service_error_eq h
    · exact multiply_service_error_eq h
  · intro a b e h
    exact divide_service_error_eq h
  · intro req msg
    rfl

/-- Witness for C3: a division by zero surfaces to the client as status 400
with the fixed detail, and a mocked calculation step raising an unanticipated
fault surfaces as the fallback `UnsupportedOperationError`. -/
theorem C3_business_errors_surface_as_400_witness :
    (DivisionByZeroError (some "Division by zero is not allowed")).statusCode = 400 ∧
    handleWith Router.operationMap ⟨"divide", ⟨1, 0⟩, ⟨0, 0⟩⟩ =
      .failure 400 "Division by zero is not allowed" ∧
    Router.calculateWith (fun _ => some (fun _ _ => .error (.other "boom")))
        ⟨.add, ⟨1, 0⟩, ⟨2, 0⟩⟩ =
      .error (UnsupportedOperationError
        (some "An unexpected error occurred during calculation")) :=
  ⟨C3_business_errors_surface_as_400.1 ⟨.divide, ⟨1, 0⟩, ⟨0, 0⟩⟩ _ rfl ▸ rfl,
    C3_business_errors_surface_as_400.2.1 Router.operationMap
      ⟨"divide", ⟨1, 0⟩, ⟨0, 0⟩⟩ ⟨.divide, ⟨1, 0⟩, ⟨0, 0⟩⟩
      (DivisionByZeroError (some "Division by zero is not allowed")) rfl rfl,
    C3_business_errors_surface_as_400.2.2.2.2.2 ⟨.add, ⟨1, 0⟩, ⟨2, 0⟩⟩ "boom"⟩

/-- Claim C7, counterexample: the all-operands iff "each core function raises
CalculationOverflow exactly when its computed result's magnitude exceeds
`10^10`" is false of the code: for `a = b = Decimal("1E+999999")` the exact
product `10^1999998` far exceeds `10^10`, yet `multiply` raises the decimal
library's trapped `decimal.Overflow` (the product's adjusted exponent is
above the context's `Emax`), not `CalculationOverflowError`. -/
theorem C7_decimal_context_counterexample :
    Calculator.multiply ⟨1, 999999⟩ ⟨1, 999999⟩ = .error (.other "decimal.Overflow") ∧
    Calculator.multiply ⟨1, 999999⟩ ⟨1, 999999⟩ ≠
      .error (.service (CalculationOverflowError
        (some "Calculation result exceeds supported range"))) ∧
    (10 : ℚ) ^ (10 : ℕ) < Dec.val ⟨1, 999999⟩ * Dec.val ⟨1, 999999⟩ := by
  have h1 : Calculator.multiply ⟨1, 999999⟩ ⟨1, 999999⟩ =
      .error (.other "decimal.Overflow") := rfl
  refine ⟨h1, ?_, ?_⟩
  · intro h
    rw [h1] at h
    simp at h
  simp only [Dec.val_mk]
  rw [Int.cast_one, one_mul, ← zpow_add₀ (by norm_num : (10 : ℚ) ≠ 0),
    ← zpow_natCast (10 : ℚ) 10]
  exact zpow_lt_zpow_right₀ (by norm_num) (by norm_num)

/-- Claim C7, amended: the core functions never re-validate the operand
range: for all operands whatsoever (including ones far outside
`[-10^10, 10^10]`), whenever the decimal context yields a rounded result —
which it does unless the result's adjusted exponent exceeds the context's own
`Emax`, in which case the library's trapped `decimal.Overflow` propagates as
an unanticipated fault instead — each function raises `CalculationOverflow`
exactly when that rounded result's magnitude is strictly above `10^10` and
returns the rounded result otherwise; `divide` additionally raises
`DivisionByZero` exactly when `b = 0`.  In particular
`add(2*10^10, -2*10^10)` returns `0` without error. -/
theorem C7_core_checks_result_only (a b : Dec) :
    (∀ r, Dec.add a b = some r →
      ((Calculator.add a b = .error (.service (CalculationOverflowError
          (some "Calculation result exceeds supported range")))) ↔ 10 ^ 10 < |r.val|) ∧
      (|r.val| ≤ 10 ^ 10 → Calculator.add a b = .ok r)) ∧
    (Dec.add a b = none → Calculator.add a b = .error (.other "decimal.Overflow")) ∧
    (∀ r, Dec.sub a b = some r →
      ((Calculator.subtract a b = .error (.service (CalculationOverflowError
          (some "Calculation result exceeds supported range")))) ↔ 10 ^ 10 < |r.val|) ∧
      (|r.val| ≤ 10 ^ 10 → Calculator.subtract a b = .ok r)) ∧
    (Dec.sub a b = none → Calculator.subtract a b = .error (.other "decimal.Overflow")) ∧
    (∀ r, Dec.mul a b = some r →
      ((Calculator.multiply a b = .error (.service (CalculationOverflowError
          (some "Calculation result exceeds supported range")))) ↔ 10 ^ 10 < |r.val|) ∧
      (|r.val| ≤ 10 ^ 10 → Calculator.multiply a b = .ok r)) ∧
    (Dec.mul a b = none → Calculator.multiply a b = .error (.other "decimal.Overflow")) ∧
    (b.val ≠ 0 →
      (∀ r, Dec.divRaw a b = some r →
        ((Calculator.divide a b = .error (.service (CalculationOverflowError
            (some "Calculation result exceeds supported range")))) ↔ 10 ^ 10 < |r.val|) ∧
        (|r.val| ≤ 10 ^ 10 → Calculator.divide a b = .ok r)) ∧
      (Dec.divRaw a b = none →
        Calculator.divide a b = .error (.other "decimal.Overflow"))) ∧
    (b.val = 0 →
      Calculator.divide a b =
        .error (.service (DivisionByZeroError (some "Division by zero is not allowed")))) := by
  have guard_iff : ∀ r : Dec,
      ((if Dec.absGt r Calculator.MAX_ABS_OPERAND then
          (Except.error (PyExc.service (CalculationOverflowError
            (some "Calculation result exceeds supported range"))) :
            Except PyExc Dec)
        else Except.ok r) =
        Except.error (PyExc.service (CalculationOverflowError
          (some "Calculation result exceeds supported range")))) ↔
      10 ^ 10 < |r.val| := by
    intro r
    by_cases hb : Dec.absGt r Calculator.MAX_ABS_OPERAND = true
    · rw [if_pos hb]
      exact iff_of_true rfl ((Dec.absGt_MAX_iff r).1 hb)
    · rw [if_neg hb]
      exact iff_of_false (fun hc => by cases hc)
        (fun hlt => hb ((Dec.absGt_MAX_iff r).2 hlt))
  refine ⟨?_, ?_, ?_, ?_, ?_, ?_, ?_, ?_⟩
  · intro r hr
    simp only [Calculator.add, hr]
    exact ⟨guard_iff r, fun h => overflow_guard_ok h⟩
  · intro hr
    simp only [Calculator.add, hr]
  · intro r hr
    simp only [Calculator.subtract, hr]
    exact ⟨guard_iff r, fun h => overflow_guard_ok h⟩
  · intro hr
    simp only [Calculator.subtract, hr]
  · intro r hr
    simp only [Calculator.multiply, hr]
    exact ⟨guard_iff r, fun h => overflow_guard_ok h⟩
  · intro hr
    simp only [Calculator.multiply, hr]
  · intro hbz
    have hz : ¬(Dec.beq b ⟨0, 0⟩ = true) := fun hb => hbz ((Dec.beq_zero_iff b).1 hb)
    constructor
    · intro r hr
      simp only [Calculator.divide, if_neg hz, hr]
      exact ⟨guard_iff r, fun h => overflow_guard_ok h⟩
    · intro hr
      simp only [Calculator.divide, if_neg hz, hr]
  · intro hbz
    rw [Calculator.divide, if_pos ((Dec.beq_zero_iff b).2 hbz)]

/-- Witness for C7 at operands far outside the boundary range: both operands
of `add` have magnitude `2 * 10^10 > 10^10`, yet the call succeeds because
the result `0` is in range; likewise `divide` of two such operands returns
`1`. -/
theorem C7_core_checks_result_only_witness :
    Calculator.add ⟨20000000000, 0⟩ ⟨-20000000000, 0⟩ = .ok ⟨0, 0⟩ ∧
    Calculator.divide ⟨20000000000, 0⟩ ⟨20000000000, 0⟩ = .ok ⟨1, 0⟩ := by
  constructor
  · have h := ((C7_core_checks_result_only ⟨20000000000, 0⟩ ⟨-20000000000, 0⟩).1
      ⟨0, 0⟩ (by rfl)).2 ?_
    · exact h
    · show |Dec.val ⟨0, 0⟩| ≤ 10 ^ 10
      simp only [Dec.val_mk]
      rw [abs_le]
      constructor <;> norm_num
  · have h := (((C7_core_checks_result_only ⟨20000000000, 0⟩
        ⟨20000000000, 0⟩).2.2.2.2.2.2.1 ?_).1 ⟨1, 0⟩ (by rfl)).2 ?_
    · exact h
    · show Dec.val ⟨20000000000, 0⟩ ≠ 0
      simp only [Dec.val_mk]
      norm_num
    · show |Dec.val ⟨1, 0⟩| ≤ 10 ^ 10
      simp only [Dec.val_mk]
      rw [abs_le]
      constructor <;> norm_num

/-- Claim C8: The request-handling path is deterministic: two runs of the
pipeline on the same payload yield the same outcome — the embedding of the
pipeline is a pure function of the payload (no clock, randomness or mutable
state appears anywhere in the validation, dispatch, arithmetic or
serialization path). -/
theorem C8_deterministic (raw : RawRequest) (r₁ r₂ : Response)
    (h₁ : handleRequest raw = r₁) (h₂ : handleRequest raw = r₂) : r₁ = r₂ :=
  h₁ ▸ h₂

/-- Witness for C8 on the spec's first concrete scenario: the pipeline maps
`{operation:"add", a:"10.5", b:"5.25"}` to the success response with result
string `"15.75"`, and doing it twice yields that same response. -/
theorem C8_deterministic_witness :
    handleRequest ⟨"add", ⟨105, -1⟩, ⟨525, -2⟩⟩ =
      Response.success "15.75" "add" ["10.5", "5.25"] :=
  C8_deterministic ⟨"add", ⟨105, -1⟩, ⟨525, -2⟩⟩
    (handleRequest ⟨"add", ⟨105, -1⟩, ⟨525, -2⟩⟩)
    (Response.success "15.75" "add" ["10.5", "5.25"]) rfl rfl

/-- Claim C9: Every `OperationType` value is a key of `operation_map`, the
deployed endpoint body equals the closed four-way dispatch `dispatchSpec`
(so a validated request is always dispatched to exactly one of `add`,
`subtract`, `multiply`, `divide`), and the guarded unsupported-operation
branch — which would carry the interpolated message rather than the fixed
one — is unreachable. -/
theorem C9_dispatch_total :
    (∀ op : OperationType, (Router.operationMap op).isSome = true) ∧
    (∀ req : CalculationRequest, Router.calculate req = dispatchSpec req) ∧
    (∀ req : CalculationRequest,
      Router.calculate req ≠
        .error (UnsupportedOperationError
          (some ("Unsupported operation: " ++ req.operation.value)))) := by
  refine ⟨?_, ?_, ?_⟩
  · intro op
    cases op <;> rfl
  · intro req
    obtain ⟨op, a, b⟩ := req
    cases op
    case add =>
      simp only [Router.calculate, Router.calculateWith, Router.operationMap, dispatchSpec]
      rcases hc : Calculator.add a b with exc | r
      · rcases exc with e2 | msg <;> simp only [hc]
      · simp only [hc]
    case subtract =>
      simp only [Router.calculate, Router.calculateWith, Router.operationMap, dispatchSpec]
      rcases hc : Calculator.subtract a b with exc | r
      · rcases exc with e2 | msg <;> simp only [hc]
      · simp only [hc]
    case multiply =>
      simp only [Router.calculate, Router.calculateWith, Router.operationMap, dispatchSpec]
      rcases hc : Calculator.multiply a b with exc | r
      · rcases exc with e2 | msg <;> simp only [hc]
      · simp only [hc]
    case divide =>
      simp only [Router.calculate, Router.calculateWith, Router.operationMap, dispatchSpec]
      rcases hc : Calculator.divide a b with exc | r
      · rcases exc with e2 | msg <;> simp only [hc]
      · simp only [hc]
  · intro req h
    obtain ⟨op, a, b⟩ := req
    rcases calculate_error_classify h with heq | heq | heq
    · have hk := congrArg ArithmeticServiceError.kind heq
      simp [DivisionByZeroError, UnsupportedOperationError] at hk
    · have hk := congrArg ArithmeticServiceError.kind heq
      simp [CalculationOverflowError, UnsupportedOperationError] at hk
    · have hd := congrArg ArithmeticServiceError.detail heq
      simp only [UnsupportedOperationError, Option.getD_some] at hd
      cases op <;> exact absurd hd (by decide)

/-- Claim C4: Structural validation: a request fails validation exactly when
the operation string is not one of the four lowercase tokens or an operand's
value lies outside `[-10^10, 10^10]`; the error list enumerates precisely the
violated fields (in declaration order `operation`, `a`, `b`) and is nonempty;
and a failing request is answered with the distinct unprocessable-entity
status 422 no matter what the dispatch table would compute — the arithmetic
never runs. -/
theorem C4_structural_validation (raw : RawRequest) :
    ((raw.operation ∉ (["add", "subtract", "multiply", "divide"] : List String) ∨
        10 ^ 10 < |raw.a.val| ∨ 10 ^ 10 < |raw.b.val|) ↔
      ∃ errs, validate raw = .error errs) ∧
    (∀ errs, validate raw = .error errs →
      errs = (if raw.operation ∈ (["add", "subtract", "multiply", "divide"] : List String)
            then [] else ["operation"]) ++
          (if |raw.a.val| ≤ 10 ^ 10 then [] else ["a"]) ++
          (if |raw.b.val| ≤ 10 ^ 10 then [] else ["b"]) ∧
        errs ≠ []) ∧
    (∀ (opMap : OperationType → Option CalcFun) errs, validate raw = .error errs →
      handleWith opMap raw = .validationFailure 422 errs) := by
  obtain ⟨ops, a, b⟩ := raw
  have e1 : (if (OperationType.ofValue ops).isNone = true then ["operation"]
        else ([] : List String)) =
      (if ops ∈ (["add", "subtract", "multiply", "divide"] : List String) then []
        else ["operation"]) := by
    cases hov : OperationType.ofValue ops with
    | none =>
        rw [if_neg ((ofValue_eq_none_iff ops).1 hov)]
        simp
    | some op =>
        have hmem : ops ∈ (["add", "subtract", "multiply", "divide"] : List String) := by
          by_contra hn
          have h' := (ofValue_eq_none_iff ops).2 hn
          rw [hov] at h'
          cases h'
        rw [if_pos hmem]
        simp
  have e2 : (if inRange a = true then [] else (["a"] : List String)) =
      (if |a.val| ≤ 10 ^ 10 then [] else ["a"]) := by
    by_cases h : inRange a = true
    · rw [if_pos h, if_pos ((inRange_iff a).1 h)]
    · rw [if_neg h, if_neg (fun hle => h ((inRange_iff a).2 hle))]
  have e3 : (if inRange b = true then [] else (["b"] : List String)) =
      (if |b.val| ≤ 10 ^ 10 then [] else ["b"]) := by
    by_cases h : inRange b = true
    · rw [if_pos h, if_pos ((inRange_iff b).1 h)]
    · rw [if_neg h, if_neg (fun hle => h ((inRange_iff b).2 hle))]
  have hval : ∀ errs, validate ⟨ops, a, b⟩ = .error errs →
      errs = (if (OperationType.ofValue ops).isNone = true then ["operation"] else []) ++
        (if inRange a = true then [] else ["a"]) ++
        (if inRange b = true then [] else ["b"]) ∧
      errs ≠ [] := by
    intro errs h
    cases hov : OperationType.ofValue ops with
    | none =>
        simp only [validate, hov, Option.isNone_none, if_true] at h ⊢
        refine ⟨(Except.error.inj h).symm, ?_⟩
        rw [← (Except.error.inj h)]
        simp
    | some op =>
        simp only [validate, hov, Option.isNone_some] at h ⊢
        cases hA : inRange a <;> cases hB : inRange b <;> simp only [hA, hB] at h ⊢
        · simp only [Bool.and_self, if_false] at h
          refine ⟨(Except.error.inj h).symm, ?_⟩
          rw [← (Except.error.inj h)]
          simp
        · simp only [Bool.false_and, if_false] at h
          refine ⟨(Except.error.inj h).symm, ?_⟩
          rw [← (Except.error.inj h)]
          simp
        · simp only [Bool.and_false, if_false] at h
          refine ⟨(Except.error.inj h).symm, ?_⟩
          rw [← (Except.error.inj h)]
          simp
        · simp only [Bool.and_self, if_true] at h
          cases h
  refine ⟨?_, ?_, ?_⟩
  · constructor
    · intro hviol
      cases hv : validate ⟨ops, a, b⟩ with
      | error errs => exact ⟨errs, rfl⟩
      | ok req' =>
          exfalso
          rcases hviol with hop | hA | hB
          · have hov := (ofValue_eq_none_iff ops).2 hop
            simp [validate, hov] at hv
          · have hA' : inRange a = false := by
              cases h' : inRange a
              · rfl
              · exact absurd ((inRange_iff a).1 h') (not_le.2 hA)
            cases hov : OperationType.ofValue ops with
            | none => simp [validate, hov] at hv
            | some op => simp [validate, hov, hA'] at hv
          · have hB' : inRange b = false := by
              cases h' : inRange b
              · rfl
              · exact absurd ((inRange_iff b).1 h') (not_le.2 hB)
            cases hov : OperationType.ofValue ops with
            | none => simp [validate, hov] at hv
            | some op => simp [validate, hov, hB'] at hv
    · rintro ⟨errs, herrs⟩
      by_contra hno
      have hopMem : ops ∈ (["add", "subtract", "multiply", "divide"] : List String) :=
        not_not.1 (fun hn => hno (Or.inl hn))
      have hA : ¬(10 ^ 10 < |a.val|) := fun h => hno (Or.inr (Or.inl h))
      have hB : ¬(10 ^ 10 < |b.val|) := fun h => hno (Or.inr (Or.inr h))
      obtain ⟨op, hov⟩ : ∃ op, OperationType.ofValue ops = some op := by
        cases h' : OperationType.ofValue ops with
        | none => exact absurd hopMem ((ofValue_eq_none_iff ops).1 h')
        | some op => exact ⟨op, rfl⟩
      have ha : inRange a = true := (inRange_iff a).2 (not_lt.1 hA)
      have hb : inRange b = true := (inRange_iff b).2 (not_lt.1 hB)
      simp [validate, hov, ha, hb] at herrs
  · intro errs herrs
    obtain ⟨heq, hne⟩ := hval errs herrs
    refine ⟨?_, hne⟩
    rw [heq, e1, e2, e3]
  · intro opMap errs heq
    simp only [handleWith, heq]

/-- Witness for C4 on the spec's scenarios 4 and 5: `operation:"power"` is
rejected naming the `operation` field, and `b = 99999999999 > 10^10` is
rejected naming the `b` field; both are answered with status 422 whatever the
dispatch table is. -/
theorem C4_structural_validation_witness :
    validate ⟨"power", ⟨2, 0⟩, ⟨3, 0⟩⟩ = .error ["operation"] ∧
    validate ⟨"add", ⟨1, 0⟩, ⟨99999999999, 0⟩⟩ = .error ["b"] ∧
    handleWith Router.operationMap ⟨"power", ⟨2, 0⟩, ⟨3, 0⟩⟩ =
      .validationFailure 422 ["operation"] ∧
    (∃ errs, validate ⟨"add", ⟨1, 0⟩, ⟨99999999999, 0⟩⟩ = .error errs) := by
  refine ⟨rfl, rfl, ?_, ?_⟩
  · exact (C4_structural_validation ⟨"power", ⟨2, 0⟩, ⟨3, 0⟩⟩).2.2
      Router.operationMap ["operation"] rfl
  · refine (C4_structural_validation ⟨"add", ⟨1, 0⟩, ⟨99999999999, 0⟩⟩).1.mp ?_
    refine Or.inr (Or.inr ?_)
    show (10 : ℚ) ^ 10 < |Dec.val ⟨99999999999, 0⟩|
    simp only [Dec.val_mk]
    rw [abs_of_nonneg (by norm_num)]
    norm_num

/-- Witness for C9: instantiations at a concrete operation and a concrete
request (the divide-by-zero request, whose error is the division error, not
any unsupported-operation error). -/
theorem C9_dispatch_total_witness :
    (Router.operationMap .add).isSome = true ∧
    Router.calculate ⟨.divide, ⟨1, 0⟩, ⟨0, 0⟩⟩ = dispatchSpec ⟨.divide, ⟨1, 0⟩, ⟨0, 0⟩⟩ ∧
    Router.calculate ⟨.divide, ⟨1, 0⟩, ⟨0, 0⟩⟩ ≠
      .error (UnsupportedOperationError
        (some ("Unsupported operation: " ++ OperationType.value .divide))) :=
  ⟨C9_dispatch_total.1 .add, C9_dispatch_total.2.1 ⟨.divide, ⟨1, 0⟩, ⟨0, 0⟩⟩,
    C9_dispatch_total.2.2 ⟨.divide, ⟨1, 0⟩, ⟨0, 0⟩⟩⟩

end TsArith
